import Mathlib

/-!
Shallow embedding of the BNG Blaster interface subsystem
(`bngblaster/src/bbl_interface.c`) and of the LDP interface / adjacency
engine (`bngblaster/src/ldp/ldp_interface.c`), together with theorems
settling the specification claims about them.

The global context `g_ctx` is modelled by an explicit `Ctx` value threaded
through the functions; the filesystem holding the interface lock files is an
association list from paths to file contents; OS facilities (process-table
lookup, device queries) and the external collaborators called by
`bbl_interface_add` (`calloc`, `bbl_lag_interface_add`,
`bbl_io_add_interface`) are oracles carried in `Env` / `OS` records.
-/

set_option linter.unusedVariables false

namespace BngBlaster

/-- Content of an interface lock file: either an integer (as read back by a
decimal `fscanf` conversion) or unparsable garbage. -/
inductive LockContent where
  | intContent (n : Int)
  | garbage
deriving DecidableEq, Repr

/-- The runtime-lock directory, modelled as an association list from file
paths to lock-file contents. -/
abbrev FS := List (String × LockContent)

/-- Read a file: the first entry for the path, if any. -/
def fsRead (fs : FS) (p : String) : Option LockContent :=
  match fs with
  | [] => none
  | e :: rest => if e.1 = p then some e.2 else fsRead rest p

/-- Remove the file at path `p` (the C `remove`). -/
def fsRemove (fs : FS) (p : String) : FS :=
  match fs with
  | [] => []
  | e :: rest => if e.1 = p then fsRemove rest p else e :: fsRemove rest p

/-- Overwrite (or create) the file at path `p` with content `c`. -/
def fsWrite (fs : FS) (p : String) (c : LockContent) : FS :=
  (p, c) :: fsRemove fs p

/-- Log events emitted by the interface subsystem (the `LOG` calls of the
source, by call site). -/
inductive LogMsg where
  | interfaceInUse (name : String) (p : Int)
  | invalidLockFile (name : String)
  | noMemoryForInterface (name : String)
  | macAddressError (name : String)
  | ifindexError (name : String)
  | duplicateLink (name : String)
  | failedToAddLink (name : String)
deriving DecidableEq, Repr

/-- Ambient process and configuration state: the current process id
(`getpid`), the process-table liveness oracle (`stat("/proc/<pid>")`
succeeding, i.e. not failing with `ENOENT`), the `interface_lock_force`
configuration flag, and success oracles for the external collaborators
invoked by `bbl_interface_add`: `calloc` and the two externally defined
helpers `bbl_lag_interface_add` and `bbl_io_add_interface`. -/
structure Env where
  pid : Int
  alive : Int → Bool
  interface_lock_force : Bool
  alloc_ok : Bool
  lag_ok : String → Bool
  io_ok : String → Bool

/-- Path of the lock file for an interface name
(`/run/lock/bngblaster_<interface>.lock`). -/
def lock_path (interface_name : String) : String :=
  "/run/lock/bngblaster_" ++ interface_name ++ ".lock"

/-- Embedding of `bbl_interface_lock` (bbl_interface.c:31-69).
Returns the success flag, the filesystem after the call, and the emitted log
messages. If the lock file exists and holds a parsable pid greater than 1
whose process is still alive, the call fails unless `interface_lock_force`
is set; if the content is unparsable (or the parsed value is at most 1) the
call logs an invalid-lock-file error and fails unless `interface_lock_force`
is set; otherwise (no file, or recorded process no longer alive) it proceeds.
On every proceeding path the file is rewritten with the current pid. The
`fopen(path, "w")` failure path is an OS resource failure outside this
filesystem model: writes always succeed here. -/
def bbl_interface_lock (env : Env) (fs : FS) (interface_name : String) :
    Bool × FS × List LogMsg :=
  match fsRead fs (lock_path interface_name) with
  | none =>
      (true,
        fsWrite fs (lock_path interface_name) (LockContent.intContent env.pid),
        [])
  | some (LockContent.intContent lock_pid) =>
      if lock_pid > 1 then
        if env.alive lock_pid then
          if env.interface_lock_force then
            (true,
              fsWrite fs (lock_path interface_name)
                (LockContent.intContent env.pid),
              [LogMsg.interfaceInUse interface_name lock_pid])
          else
            (false, fs, [LogMsg.interfaceInUse interface_name lock_pid])
        else
          (true,
            fsWrite fs (lock_path interface_name)
              (LockContent.intContent env.pid),
            [])
      else
        if env.interface_lock_force then
          (true,
            fsWrite fs (lock_path interface_name)
              (LockContent.intContent env.pid),
            [LogMsg.invalidLockFile interface_name])
        else
          (false, fs, [LogMsg.invalidLockFile interface_name])
  | some LockContent.garbage =>
      if env.interface_lock_force then
        (true,
          fsWrite fs (lock_path interface_name)
            (LockContent.intContent env.pid),
          [LogMsg.invalidLockFile interface_name])
      else
        (false, fs, [LogMsg.invalidLockFile interface_name])

/-- I/O backend modes. Only the DPDK / non-DPDK distinction is observable in
the sampled sources; `packet_mmap` stands for the non-DPDK default backend
(the zero enum value, hence the state of the field in a freshly calloc-ed
interface, cf. the source comment that packet_mmap is selected per
default). -/
inductive IoMode where
  | packet_mmap
  | dpdk
deriving DecidableEq, Repr

/-- OS device-query facilities, by interface name: the `SIOCGIFHWADDR` and
`SIOCGIFINDEX` ioctls, each of which may fail independently. -/
structure OS where
  hwaddr : String → Option (List Nat)
  ifindex : String → Option Int

/-- One entry of the `link_config` list (`bbl_link_config_s`), restricted to
the fields read by the sampled sources. -/
structure LinkConfig where
  interface : String
  io_mode : IoMode
  mac : List Nat
deriving DecidableEq, Repr

/-- One registered interface (`bbl_interface_s`), restricted to the fields
written by the sampled sources; the buffer pointers and the rate timer are
modelled as allocated / armed flags. -/
structure BblInterface where
  name : String
  pcap_index : Nat
  mac : List Nat
  ifindex : Int
  io_mode : IoMode
  config : Option LinkConfig
  rx_buf : Bool
  tx_buf : Bool
  rate_job_armed : Bool
deriving DecidableEq, Repr

/-- A freshly calloc-ed (zero-initialized) interface record. -/
def calloc_interface : BblInterface :=
  { name := ""
    pcap_index := 0
    mac := [0, 0, 0, 0, 0, 0]
    ifindex := 0
    io_mode := IoMode.packet_mmap
    config := none
    rx_buf := false
    tx_buf := false
    rate_job_armed := false }

/-- The parts of the global context `g_ctx` touched by the sampled sources:
the interface registry (`interface_qhead`, a CIRCLEQ, ordered), the lock-file
filesystem state, and the pcap index counter. -/
structure Ctx where
  registry : List BblInterface
  fs : FS
  pcap_index : Nat
deriving DecidableEq, Repr

/-- Embedding of the C test `*(uint64_t*)link_config->mac & 0xffffffffffff00`
deciding whether a statically configured MAC overrides the kernel one: the
mask selects the bytes of the loaded word at offsets 1..6, i.e. the MAC
bytes at indices 1..5 (the byte at offset 6 lies past the 6-byte array and
is not modelled). -/
def macNonzero (mac : List Nat) : Bool :=
  (mac.drop 1).any (fun b => b != 0)

/-- Embedding of `bbl_interface_set_kernel_info` (bbl_interface.c:87-119).
For the DPDK mode the kernel query step is skipped and reports success
trivially; otherwise the hardware address and then the kernel index are
queried, either failure aborting with `false`. The interface record is
returned as mutated so far (the MAC is already copied when the index lookup
fails). -/
def bbl_interface_set_kernel_info (os : OS) (interface : BblInterface) :
    Bool × BblInterface × List LogMsg :=
  if interface.io_mode = IoMode.dpdk then
    (true, interface, [])
  else
    match os.hwaddr interface.name with
    | none => (false, interface, [LogMsg.macAddressError interface.name])
    | some hw =>
        let interface1 := { interface with mac := hw }
        match os.ifindex interface1.name with
        | none => (false, interface1, [LogMsg.ifindexError interface1.name])
        | some idx => (true, { interface1 with ifindex := idx }, [])

/-- Embedding of `bbl_interface_add` (bbl_interface.c:128-173). Returns the
created interface (or `none` on failure), the context after the call, and
the emitted logs. Mirrors the source order of effects: allocation, name and
pcap index assignment, lock acquisition, tail insertion into the registry,
kernel binding, config / buffer / io-mode assignment, optional MAC override,
LAG membership, I/O backend initialization, rate-timer arming. Because the
registry holds a pointer to the interface record, the registry entry at each
return point reflects every mutation made up to that point; failures after
the tail insertion leave the entry in the registry. -/
def bbl_interface_add (env : Env) (os : OS) (ctx : Ctx)
    (link_config : LinkConfig) : Option BblInterface × Ctx × List LogMsg :=
  if !env.alloc_ok then
    (none, ctx, [LogMsg.noMemoryForInterface link_config.interface])
  else
    let interface0 : BblInterface :=
      { calloc_interface with
          name := link_config.interface
          pcap_index := ctx.pcap_index }
    let ctx0 : Ctx := { ctx with pcap_index := ctx.pcap_index + 1 }
    match bbl_interface_lock env ctx0.fs link_config.interface with
    | (false, fs1, logs1) => (none, { ctx0 with fs := fs1 }, logs1)
    | (true, fs1, logs1) =>
        let ctx1 : Ctx := { ctx0 with fs := fs1 }
        match bbl_interface_set_kernel_info os interface0 with
        | (false, interface1, logs2) =>
            (none, { ctx1 with registry := ctx1.registry ++ [interface1] },
              logs1 ++ logs2)
        | (true, interface1, logs2) =>
            let interface2 : BblInterface :=
              { interface1 with
                  config := some link_config
                  rx_buf := true
                  tx_buf := true
                  io_mode := link_config.io_mode }
            let interface3 : BblInterface :=
              if macNonzero link_config.mac then
                { interface2 with mac := link_config.mac }
              else interface2
            if !env.lag_ok link_config.interface then
              (none, { ctx1 with registry := ctx1.registry ++ [interface3] },
                logs1 ++ logs2)
            else if !env.io_ok link_config.interface then
              (none, { ctx1 with registry := ctx1.registry ++ [interface3] },
                logs1 ++ logs2)
            else
              let interface4 : BblInterface :=
                { interface3 with rate_job_armed := true }
              (some interface4,
                { ctx1 with registry := ctx1.registry ++ [interface4] },
                logs1 ++ logs2)

/-- Embedding of `bbl_interface_get` (bbl_interface.c:183-193): lookup by
name in registry order. -/
def bbl_interface_get (registry : List BblInterface)
    (interface_name : String) : Option BblInterface :=
  match registry with
  | [] => none
  | interface :: rest =>
      if interface.name = interface_name then some interface
      else bbl_interface_get rest interface_name

/-- Embedding of the interface-initialization loop, the static
`bbl_interface_init` (bbl_interface.c:198-218): walks the `link_config`
list; a name already present in the registry fails with a duplicate-link
error, a failed `bbl_interface_add` fails with a failed-to-add error, and
otherwise the loop continues with the next configuration. -/
def bbl_interface_init (env : Env) (os : OS) (ctx : Ctx) :
    List LinkConfig → Bool × Ctx × List LogMsg
  | [] => (true, ctx, [])
  | link_config :: rest =>
      if (bbl_interface_get ctx.registry link_config.interface).isSome then
        (false, ctx, [LogMsg.duplicateLink link_config.interface])
      else
        match bbl_interface_add env os ctx link_config with
        | (none, ctx1, logs1) =>
            (false, ctx1, logs1 ++ [LogMsg.failedToAddLink link_config.interface])
        | (some _, ctx1, logs1) =>
            let r := bbl_interface_init env os ctx1 rest
            (r.1, r.2.1, logs1 ++ r.2.2)

/-- Embedding of `bbl_interface_unlock_all` (bbl_interface.c:76-85): removes
the lock file of every interface in the registry. -/
def bbl_interface_unlock_all (ctx : Ctx) : Ctx :=
  { ctx with
      fs := ctx.registry.foldl
        (fun fs interface => fsRemove fs (lock_path interface.name)) ctx.fs }

/-- Modelled from the spec: the states of the adjacency state machine
(§4.2/§4.3); the enum itself is defined outside the sampled sources. `down`
is the zero value, hence the state of a freshly calloc-ed adjacency. -/
inductive LdpAdjacencyState where
  | down
  | helloActive
  | operational
deriving DecidableEq, Repr

/-- One LDP adjacency (`ldp_adjacency_s`), restricted to the fields touched
by the sampled sources: the back-references to the owning instance (by id)
and the bound interface (by name), the adjacency state, and whether its
periodic Hello timer is armed. The `next` chaining pointer is represented by
the position in the instance's adjacency list. -/
structure LdpAdjacency where
  instance_ref : Option Nat
  interface_ref : Option String
  state : LdpAdjacencyState
  hello_timer_armed : Bool
deriving DecidableEq, Repr

/-- A freshly calloc-ed (zero-initialized) adjacency record. -/
def calloc_adjacency : LdpAdjacency :=
  { instance_ref := none
    interface_ref := none
    state := LdpAdjacencyState.down
    hello_timer_armed := false }

/-- One LDP instance (`ldp_instance_s`), restricted to its identity and the
adjacency collection headed by `instance->adjacencies`. -/
structure LdpInstance where
  id : Nat
  adjacencies : List LdpAdjacency
deriving DecidableEq, Repr

/-- One network interface (`bbl_network_interface_s`), restricted to the
fields touched by the sampled sources: its name, the `send_requests`
bitmask word, and the non-owning reverse reference to its LDP adjacency. -/
structure NetworkInterface where
  name : String
  send_requests : Nat
  ldp_adjacency : Option LdpAdjacency
deriving DecidableEq, Repr

/-- Modelled from the spec: the bit requesting an LDP Hello transmission in
the interface's `send_requests` word; its numeric value is defined in a
header outside the sampled sources, and no property below depends on the
value beyond it being one fixed mask. -/
def BBL_IF_SEND_LDP_HELLO : Nat := 2

/-- Embedding of `ldp_interface_hello_job` (ldp_interface.c:11-18): the
timer callback resolves the adjacency's bound interface and ORs the
Hello-request bit into its `send_requests` word. The C obtains the interface
through `adjacency->interface`; the model passes that interface's state
directly. -/
def ldp_interface_hello_job (interface : NetworkInterface) : NetworkInterface :=
  { interface with
      send_requests := interface.send_requests ||| BBL_IF_SEND_LDP_HELLO }

/-- Modelled from the spec: `ldp_hello_start` (defined in ldp_hello.c,
outside the sampled sources) arms the adjacency's periodic Hello timer and
performs the DOWN → HELLO_ACTIVE transition upon attachment (§4.3: the
Hello timer is armed immediately on adjacency creation, before the first
firing). -/
def ldp_hello_start (adjacency : LdpAdjacency) : LdpAdjacency :=
  { adjacency with
      hello_timer_armed := true
      state := LdpAdjacencyState.helloActive }

/-- The network-interface configuration (`bbl_network_config_s`), restricted
to the field read by the sampled sources (only for logging). -/
structure NetworkConfig where
  ldp_instance_id : Nat
deriving DecidableEq, Repr

/-- Embedding of `ldp_interface_init` (ldp_interface.c:29-49): allocates an
adjacency, pushes it at the head of the instance's adjacency list
(`adjacency->next = instance->adjacencies; instance->adjacencies =
adjacency`), sets its back-references to the owning instance and the bound
interface, stores the reverse reference on the interface, and calls
`ldp_hello_start`. The C mutates the single heap adjacency after linking
it, so the list head, the interface's reverse reference and the returned
adjacency all denote the final record. Returns the success flag, the created
adjacency, and the updated instance and interface. -/
def ldp_interface_init (interface : NetworkInterface)
    (interface_config : NetworkConfig) (instance_ : LdpInstance) :
    Bool × LdpAdjacency × LdpInstance × NetworkInterface :=
  let adjacency0 : LdpAdjacency :=
    { calloc_adjacency with
        instance_ref := some instance_.id
        interface_ref := some interface.name }
  let adjacency : LdpAdjacency := ldp_hello_start adjacency0
  (true, adjacency,
    { instance_ with adjacencies := adjacency :: instance_.adjacencies },
    { interface with ldp_adjacency := some adjacency })

/-- The external events driving one adjacency: its Hello timer firing
(handled by `ldp_interface_hello_job` in the sampled sources) and the
receipt of a valid peer Hello (an external event per the spec §4.3). -/
inductive LdpEvent where
  | helloTimerFire
  | peerHello
deriving DecidableEq, Repr

/-- Modelled from the spec: the HELLO_ACTIVE → OPERATIONAL transition on
receipt of a valid peer Hello (§4.3); the receive handler is outside the
sampled sources. -/
def ldp_peer_hello_event (adjacency : LdpAdjacency) : LdpAdjacency :=
  if adjacency.state = LdpAdjacencyState.helloActive then
    { adjacency with state := LdpAdjacencyState.operational }
  else adjacency

/-- One step of the adjacency system on a pair (adjacency, bound
interface). -/
def ldp_step (e : LdpEvent) (s : LdpAdjacency × NetworkInterface) :
    LdpAdjacency × NetworkInterface :=
  match e with
  | LdpEvent.helloTimerFire => (s.1, ldp_interface_hello_job s.2)
  | LdpEvent.peerHello => (ldp_peer_hello_event s.1, s.2)

/-- Run a trace of events from a state. -/
def ldp_run (s : LdpAdjacency × NetworkInterface) (trace : List LdpEvent) :
    LdpAdjacency × NetworkInterface :=
  trace.foldl (fun s e => ldp_step e s) s

/-! ## Concrete sample inputs used to witness the theorems -/

/-- A sample environment: pid 42, only process 7 alive, no lock forcing, all
external collaborators succeeding. -/
def sample_env : Env :=
  { pid := 42
    alive := fun q => q == 7
    interface_lock_force := false
    alloc_ok := true
    lag_ok := fun _ => true
    io_ok := fun _ => true }

/-- The sample environment with the `interface_lock_force` override set. -/
def sample_env_force : Env :=
  { sample_env with interface_lock_force := true }

/-- A sample OS in which both device queries succeed on every name. -/
def sample_os : OS :=
  { hwaddr := fun _ => some [2, 0, 0, 0, 0, 1]
    ifindex := fun _ => some 7 }

/-- A sample OS in which both device queries fail on every name. -/
def sample_os_fail : OS :=
  { hwaddr := fun _ => none
    ifindex := fun _ => none }

/-- An empty starting context: no interfaces, no lock files. -/
def sample_ctx : Ctx :=
  { registry := [], fs := [], pcap_index := 0 }

/-- A link configuration with a given name and io mode and no static MAC. -/
def sample_link (name : String) (mode : IoMode) : LinkConfig :=
  { interface := name, io_mode := mode, mac := [0, 0, 0, 0, 0, 0] }

/-- A lock file for eth0 recording the live process 7. -/
def fs_busy : FS := [(lock_path "eth0", LockContent.intContent 7)]

/-- A lock file for eth0 recording the dead process 9. -/
def fs_dead : FS := [(lock_path "eth0", LockContent.intContent 9)]

/-- A lock file for eth0 with unparsable content. -/
def fs_garbage : FS := [(lock_path "eth0", LockContent.garbage)]

/-- A context whose registry holds one interface named eth0 while its lock
file exists (the state before a clean shutdown releases the lock). -/
def sample_locked_ctx : Ctx :=
  { registry := [{ calloc_interface with name := "eth0" }]
    fs := fs_busy
    pcap_index := 1 }

/-- The interface record produced by registering eth0 in `sample_env` /
`sample_os` from the empty context. -/
def sample_added_interface : BblInterface :=
  { name := "eth0"
    pcap_index := 0
    mac := [2, 0, 0, 0, 0, 1]
    ifindex := 7
    io_mode := IoMode.packet_mmap
    config := some (sample_link "eth0" IoMode.packet_mmap)
    rx_buf := true
    tx_buf := true
    rate_job_armed := true }

/-- The context after that successful sample registration. -/
def sample_added_ctx : Ctx :=
  { registry := [sample_added_interface]
    fs := [(lock_path "eth0", LockContent.intContent 42)]
    pcap_index := 1 }

/-! ## Helper lemmas -/

theorem hello_job_idem (interface : NetworkInterface) :
    ldp_interface_hello_job (ldp_interface_hello_job interface)
      = ldp_interface_hello_job interface := by
  simp [ldp_interface_hello_job, Nat.lor_assoc]

theorem hello_job_iterate (k : Nat) (h : 1 ≤ k) (interface : NetworkInterface) :
    ldp_interface_hello_job^[k] interface = ldp_interface_hello_job interface := by
  induction k with
  | zero => omega
  | succ n ih =>
      cases n with
      | zero => simp
      | succ m =>
          rw [Function.iterate_succ_apply', ih (by omega), hello_job_idem]

theorem ldp_run_no_peer_adjacency (trace : List LdpEvent) :
    ∀ s : LdpAdjacency × NetworkInterface,
      (∀ e ∈ trace, e ≠ LdpEvent.peerHello) → (ldp_run s trace).1 = s.1 := by
  induction trace with
  | nil => intro s _; rfl
  | cons e rest ih =>
      intro s h
      cases e with
      | helloTimerFire =>
          have hr := ih (ldp_step LdpEvent.helloTimerFire s)
            (fun e he => h e (List.mem_cons_of_mem _ he))
          have hstep : (ldp_step LdpEvent.helloTimerFire s).1 = s.1 := rfl
          have hrun : ldp_run s (LdpEvent.helloTimerFire :: rest)
              = ldp_run (ldp_step LdpEvent.helloTimerFire s) rest := rfl
          rw [hrun, hr, hstep]
      | peerHello => exact absurd rfl (h _ (List.mem_cons_self _ _))

theorem fsRead_fsWrite_self (fs : FS) (p : String) (c : LockContent) :
    fsRead (fsWrite fs p c) p = some c := by
  simp [fsRead, fsWrite]

theorem fsRead_fsRemove_self (fs : FS) (p : String) :
    fsRead (fsRemove fs p) p = none := by
  induction fs with
  | nil => rfl
  | cons e rest ih =>
      by_cases h : e.1 = p <;> simp [fsRemove, fsRead, h, ih]

theorem fsRead_none_fsRemove (fs : FS) (p q : String)
    (h : fsRead fs p = none) : fsRead (fsRemove fs q) p = none := by
  induction fs with
  | nil => rfl
  | cons e rest ih =>
      by_cases h2 : e.1 = p
      · simp [fsRead, h2] at h
      · have h3 : fsRead rest p = none := by
          simpa [fsRead, h2] using h
        by_cases h1 : e.1 = q
        · simpa [fsRemove, h1] using ih h3
        · simpa [fsRemove, fsRead, h1, h2] using ih h3

theorem unlock_foldl_none (l : List BblInterface) :
    ∀ fs : FS, ∀ p : String,
      ((∃ i ∈ l, lock_path i.name = p) ∨ fsRead fs p = none) →
      fsRead (l.foldl (fun fs i => fsRemove fs (lock_path i.name)) fs) p
        = none := by
  induction l with
  | nil =>
      intro fs p h
      rcases h with ⟨i, hi, _⟩ | h
      · exact absurd hi (List.not_mem_nil i)
      · exact h
  | cons j rest ih =>
      intro fs p h
      simp only [List.foldl_cons]
      rcases h with ⟨i, hi, hp⟩ | h
      · rcases List.mem_cons.mp hi with hij | hi2
        · refine ih _ p (Or.inr ?_)
          rw [hij] at hp
          rw [← hp]
          exact fsRead_fsRemove_self fs (lock_path j.name)
        · exact ih _ p (Or.inl ⟨i, hi2, hp⟩)
      · exact ih _ p (Or.inr (fsRead_none_fsRemove fs p _ h))

theorem bbl_interface_unlock_all_fsRead (ctx : Ctx) (i : BblInterface)
    (hi : i ∈ ctx.registry) :
    fsRead (bbl_interface_unlock_all ctx).fs (lock_path i.name) = none :=
  unlock_foldl_none ctx.registry ctx.fs _ (Or.inl ⟨i, hi, rfl⟩)

theorem bbl_interface_lock_force (env : Env) (fs : FS) (N : String)
    (hf : env.interface_lock_force = true) :
    (bbl_interface_lock env fs N).1 = true := by
  unfold bbl_interface_lock
  cases hr : fsRead fs (lock_path N) with
  | none => simp
  | some c =>
      cases c with
      | intContent n =>
          by_cases h1 : n > 1 <;> by_cases h2 : env.alive n = true <;>
            simp [h1, h2, hf]
      | garbage => simp [hf]

theorem bbl_interface_lock_true_fs (env : Env) (fs : FS) (N : String)
    (h : (bbl_interface_lock env fs N).1 = true) :
    (bbl_interface_lock env fs N).2.1
      = fsWrite fs (lock_path N) (LockContent.intContent env.pid) := by
  unfold bbl_interface_lock at h ⊢
  cases hr : fsRead fs (lock_path N) with
  | none => simp [hr]
  | some c =>
      cases c with
      | intContent n =>
          by_cases h1 : n > 1 <;> by_cases h2 : env.alive n = true <;>
            by_cases h3 : env.interface_lock_force = true <;>
            simp [hr, h1, h2, h3] at h ⊢
      | garbage =>
          by_cases h3 : env.interface_lock_force = true <;>
            simp [hr, h3] at h ⊢

theorem set_kernel_info_name (os : OS) (interface : BblInterface) :
    (bbl_interface_set_kernel_info os interface).2.1.name = interface.name := by
  unfold bbl_interface_set_kernel_info
  by_cases h : interface.io_mode = IoMode.dpdk
  · simp [h]
  · cases hw : os.hwaddr interface.name <;>
      cases hx : os.ifindex interface.name <;>
      simp [h, hw, hx]

theorem bbl_interface_add_some_effects (env : Env) (os : OS) (ctx : Ctx)
    (link_config : LinkConfig) (interface : BblInterface) (ctx1 : Ctx)
    (logs : List LogMsg)
    (h : bbl_interface_add env os ctx link_config
        = (some interface, ctx1, logs)) :
    interface.name = link_config.interface
    ∧ ctx1.registry = ctx.registry ++ [interface]
    ∧ ctx1.fs = fsWrite ctx.fs (lock_path link_config.interface)
        (LockContent.intContent env.pid) := by
  unfold bbl_interface_add at h
  cases ha : env.alloc_ok with
  | false => rw [ha] at h; simp at h
  | true =>
  rw [ha] at h
  simp only [Bool.not_true, Bool.false_eq_true, if_false, if_neg] at h
  rcases hl : bbl_interface_lock env ctx.fs link_config.interface with
    ⟨b, fs1, logs1⟩
  rw [hl] at h
  cases b with
  | false => simp at h
  | true =>
  have hfs1 : fs1 = fsWrite ctx.fs (lock_path link_config.interface)
      (LockContent.intContent env.pid) := by
    have h2 := bbl_interface_lock_true_fs env ctx.fs link_config.interface
      (by rw [hl])
    rw [hl] at h2
    exact h2
  rcases hk : bbl_interface_set_kernel_info os
      { calloc_interface with
          name := link_config.interface
          pcap_index := ctx.pcap_index } with ⟨bk, i1, logs2⟩
  rw [hk] at h
  have hi1name : i1.name = link_config.interface := by
    have h3 := set_kernel_info_name os
      { calloc_interface with
          name := link_config.interface
          pcap_index := ctx.pcap_index }
    rw [hk] at h3
    exact h3
  cases bk with
  | false => simp at h
  | true =>
  cases hlag : env.lag_ok link_config.interface with
  | false => rw [hlag] at h; simp at h
  | true =>
  rw [hlag] at h
  cases hio : env.io_ok link_config.interface with
  | false => rw [hio] at h; simp at h
  | true =>
  rw [hio] at h
  simp only [Bool.not_true, Bool.false_eq_true, if_false, if_neg,
    Prod.mk.injEq, Option.some.injEq] at h
  obtain ⟨hi, hctx, hlogs⟩ := h
  refine ⟨?_, ?_, ?_⟩
  · rw [← hi]
    cases hmac : macNonzero link_config.mac <;> simp [hmac, hi1name]
  · rw [← hctx, ← hi]
  · rw [← hctx]
    exact hfs1

theorem bbl_interface_get_append_last (r : List BblInterface)
    (i : BblInterface) (N : String)
    (h0 : bbl_interface_get r N = none) (hi : i.name = N) :
    bbl_interface_get (r ++ [i]) N = some i := by
  induction r with
  | nil => simp [bbl_interface_get, hi]
  | cons e rest ih =>
      by_cases he : e.name = N
      · simp [bbl_interface_get, he] at h0
      · have h0' : bbl_interface_get rest N = none := by
          simpa [bbl_interface_get, he] using h0
        simpa [bbl_interface_get, he] using ih h0'

theorem bbl_interface_get_none_count (r : List BblInterface) (N : String)
    (h : bbl_interface_get r N = none) :
    (r.filter (fun i => i.name == N)).length = 0 := by
  induction r with
  | nil => rfl
  | cons e rest ih =>
      by_cases he : e.name = N
      · simp [bbl_interface_get, he] at h
      · have h' : bbl_interface_get rest N = none := by
          simpa [bbl_interface_get, he] using h
        have hb : (e.name == N) = false := by
          simpa using he
        simp [List.filter_cons, hb, ih h']

/-! ## Claim theorems -/

/-- Claim C2: for every bound interface state and every number `k ≥ 1` of
Hello-timer firings with no intervening clearing of the flag, the k-fold
firing of `ldp_interface_hello_job` equals a single firing (repeated firings
are coalesced into one pending-Hello flag, never queued separately; the
Hello-job update of the `send_requests` word is idempotent), and after the
firings the pending-Hello bit is set (ORing it in again changes nothing). -/
theorem C2_hello_requests_coalesce (interface : NetworkInterface) (k : Nat)
    (h : 1 ≤ k) :
    ldp_interface_hello_job^[k] interface = ldp_interface_hello_job interface
    ∧ (ldp_interface_hello_job^[k] interface).send_requests
        ||| BBL_IF_SEND_LDP_HELLO
        = (ldp_interface_hello_job^[k] interface).send_requests := by
  refine ⟨hello_job_iterate k h interface, ?_⟩
  rw [hello_job_iterate k h interface]
  simp [ldp_interface_hello_job, Nat.lor_assoc]

/-- Witness for C2 at a concrete interface and k = 3. -/
theorem C2_hello_requests_coalesce_witness :
    ldp_interface_hello_job^[3]
        { name := "eth0", send_requests := 0, ldp_adjacency := none }
      = ldp_interface_hello_job
          { name := "eth0", send_requests := 0, ldp_adjacency := none }
    ∧ (ldp_interface_hello_job^[3]
        { name := "eth0", send_requests := 0, ldp_adjacency := none }).send_requests
        ||| BBL_IF_SEND_LDP_HELLO
        = (ldp_interface_hello_job^[3]
            { name := "eth0", send_requests := 0, ldp_adjacency := none }).send_requests :=
  C2_hello_requests_coalesce
    { name := "eth0", send_requests := 0, ldp_adjacency := none } 3 (by decide)

/-- Claim C8: on a Hello-timer firing the adjacency transmits nothing
directly: the step leaves the adjacency unchanged and changes the bound
interface only in its `send_requests` word (all other interface fields are
those of the record update, hence unchanged). -/
theorem C8_hello_job_frame (adjacency : LdpAdjacency)
    (interface : NetworkInterface) :
    ldp_step LdpEvent.helloTimerFire (adjacency, interface)
      = (adjacency,
          { interface with
              send_requests :=
                interface.send_requests ||| BBL_IF_SEND_LDP_HELLO }) := rfl

/-- Claim C7: attaching an LDP instance to an interface allocates exactly one
new adjacency, inserts it at the head of the instance's adjacency
collection, sets the adjacency's back-references to the owning instance and
the bound interface, stores the reverse (non-owning) reference on the
interface, and arms the adjacency's periodic Hello timer. -/
theorem C7_attach_effects (interface : NetworkInterface)
    (interface_config : NetworkConfig) (instance_ : LdpInstance) :
    ∃ adjacency,
      ldp_interface_init interface interface_config instance_
        = (true, adjacency,
            { instance_ with adjacencies := adjacency :: instance_.adjacencies },
            { interface with ldp_adjacency := some adjacency })
      ∧ adjacency.instance_ref = some instance_.id
      ∧ adjacency.interface_ref = some interface.name
      ∧ adjacency.hello_timer_armed = true :=
  ⟨_, rfl, rfl, rfl, rfl⟩

/-- Claim C3: an adjacency starts in DOWN (the zero-initialized state),
is in HELLO_ACTIVE immediately after attachment (before any timer firing),
never reaches OPERATIONAL along a trace containing no peer-Hello event, and
does reach OPERATIONAL on a peer-Hello event. -/
theorem C3_adjacency_state_machine (interface : NetworkInterface)
    (interface_config : NetworkConfig) (instance_ : LdpInstance)
    (trace : List LdpEvent)
    (hnp : ∀ e ∈ trace, e ≠ LdpEvent.peerHello) :
    calloc_adjacency.state = LdpAdjacencyState.down
    ∧ (ldp_interface_init interface interface_config instance_).2.1.state
        = LdpAdjacencyState.helloActive
    ∧ (ldp_run
        ((ldp_interface_init interface interface_config instance_).2.1,
          (ldp_interface_init interface interface_config instance_).2.2.2)
        trace).1.state ≠ LdpAdjacencyState.operational
    ∧ (ldp_step LdpEvent.peerHello
        ((ldp_interface_init interface interface_config instance_).2.1,
          (ldp_interface_init interface interface_config instance_).2.2.2)).1.state
        = LdpAdjacencyState.operational := by
  refine ⟨rfl, rfl, ?_, rfl⟩
  rw [ldp_run_no_peer_adjacency trace _ hnp]
  simp [ldp_interface_init, ldp_hello_start]

/-- Witness for C3 at a concrete interface, instance and a two-firing
trace containing no peer-Hello event. -/
theorem C3_adjacency_state_machine_witness :
    calloc_adjacency.state = LdpAdjacencyState.down
    ∧ (ldp_interface_init
        { name := "eth0", send_requests := 0, ldp_adjacency := none }
        { ldp_instance_id := 1 }
        { id := 1, adjacencies := [] }).2.1.state = LdpAdjacencyState.helloActive
    ∧ (ldp_run
        ((ldp_interface_init
            { name := "eth0", send_requests := 0, ldp_adjacency := none }
            { ldp_instance_id := 1 }
            { id := 1, adjacencies := [] }).2.1,
          (ldp_interface_init
            { name := "eth0", send_requests := 0, ldp_adjacency := none }
            { ldp_instance_id := 1 }
            { id := 1, adjacencies := [] }).2.2.2)
        [LdpEvent.helloTimerFire, LdpEvent.helloTimerFire]).1.state
        ≠ LdpAdjacencyState.operational
    ∧ (ldp_step LdpEvent.peerHello
        ((ldp_interface_init
            { name := "eth0", send_requests := 0, ldp_adjacency := none }
            { ldp_instance_id := 1 }
            { id := 1, adjacencies := [] }).2.1,
          (ldp_interface_init
            { name := "eth0", send_requests := 0, ldp_adjacency := none }
            { ldp_instance_id := 1 }
            { id := 1, adjacencies := [] }).2.2.2)).1.state
        = LdpAdjacencyState.operational :=
  C3_adjacency_state_machine
    { name := "eth0", send_requests := 0, ldp_adjacency := none }
    { ldp_instance_id := 1 }
    { id := 1, adjacencies := [] }
    [LdpEvent.helloTimerFire, LdpEvent.helloTimerFire]
    (by decide)

/-- Claim C1: with a registry that does not yet hold an interface named N,
running the interface-initialization loop on two link configurations named N
(the first registration succeeding) fails with a duplicate-link error on the
second call and leaves the registry with exactly one entry named N. -/
theorem C1_duplicate_interface (env : Env) (os : OS) (ctx : Ctx) (N : String)
    (c1 c2 : LinkConfig) (rest : List LinkConfig)
    (h1 : c1.interface = N) (h2 : c2.interface = N)
    (h0 : bbl_interface_get ctx.registry N = none)
    (hs : ((bbl_interface_add env os ctx c1).1).isSome = true) :
    (bbl_interface_init env os ctx (c1 :: c2 :: rest)).1 = false
    ∧ ((bbl_interface_init env os ctx (c1 :: c2 :: rest)).2.1.registry.filter
        (fun j => j.name == N)).length = 1
    ∧ LogMsg.duplicateLink N
        ∈ (bbl_interface_init env os ctx (c1 :: c2 :: rest)).2.2 := by
  rcases ha : bbl_interface_add env os ctx c1 with ⟨o, ctx1, logs1⟩
  rw [ha] at hs
  cases o with
  | none => simp at hs
  | some i =>
  obtain ⟨hname, hreg, hfs⟩ :=
    bbl_interface_add_some_effects env os ctx c1 i ctx1 logs1 ha
  have hget1 : bbl_interface_get ctx.registry c1.interface = none := by
    rw [h1]; exact h0
  have hget2 : bbl_interface_get ctx1.registry c2.interface = some i := by
    rw [h2, hreg]
    exact bbl_interface_get_append_last ctx.registry i N h0 (by rw [hname, h1])
  have hcount0 : ((ctx.registry).filter (fun j => j.name == N)).length = 0 :=
    bbl_interface_get_none_count ctx.registry N h0
  have hrun : bbl_interface_init env os ctx (c1 :: c2 :: rest)
      = (false, ctx1, logs1 ++ [LogMsg.duplicateLink c2.interface]) := by
    simp only [bbl_interface_init, hget1, ha, hget2, Option.isSome_none,
      Option.isSome_some, Bool.false_eq_true, if_false, if_true]
  rw [hrun]
  refine ⟨rfl, ?_, ?_⟩
  · have hone : (List.filter (fun j => j.name == N) [i]).length = 1 := by
      simp [List.filter, hname, h1]
    rw [hreg, List.filter_append, List.length_append, hcount0, hone]
  · rw [h2]
    simp

/-- Witness for C1: registering eth0 twice from the empty context. -/
theorem C1_duplicate_interface_witness :
    (bbl_interface_init sample_env sample_os sample_ctx
        [sample_link "eth0" IoMode.packet_mmap,
          sample_link "eth0" IoMode.packet_mmap]).1 = false
    ∧ ((bbl_interface_init sample_env sample_os sample_ctx
        [sample_link "eth0" IoMode.packet_mmap,
          sample_link "eth0" IoMode.packet_mmap]).2.1.registry.filter
        (fun j => j.name == "eth0")).length = 1
    ∧ LogMsg.duplicateLink "eth0"
        ∈ (bbl_interface_init sample_env sample_os sample_ctx
            [sample_link "eth0" IoMode.packet_mmap,
              sample_link "eth0" IoMode.packet_mmap]).2.2 :=
  C1_duplicate_interface sample_env sample_os sample_ctx "eth0"
    (sample_link "eth0" IoMode.packet_mmap)
    (sample_link "eth0" IoMode.packet_mmap)
    [] rfl rfl rfl (by decide)

/-- Claim C4: acquiring the lock while the lock file records the pid of a
still-alive process fails with the `interface_lock_force` override unset;
with the override set, lock acquisition always succeeds; and re-acquiring
the lock after a clean release (`bbl_interface_unlock_all`) succeeds. -/
theorem C4_lock_conflict_override_release (env : Env) (fs : FS) (N : String)
    (p : Int) :
    (fsRead fs (lock_path N) = some (LockContent.intContent p) →
      env.alive p = true → env.interface_lock_force = false →
      (bbl_interface_lock env fs N).1 = false)
    ∧ (env.interface_lock_force = true →
        (bbl_interface_lock env fs N).1 = true)
    ∧ (∀ ctx : Ctx, ∀ i ∈ ctx.registry, i.name = N →
        (bbl_interface_lock env (bbl_interface_unlock_all ctx).fs N).1
          = true) := by
  refine ⟨?_, ?_, ?_⟩
  · intro hread halive hforce
    unfold bbl_interface_lock
    by_cases hp : p > 1 <;> simp [hread, hp, halive, hforce]
  · exact fun hf => bbl_interface_lock_force env fs N hf
  · intro ctx i hi hname
    have h0 : fsRead (bbl_interface_unlock_all ctx).fs (lock_path N)
        = none := by
      have h4 := bbl_interface_unlock_all_fsRead ctx i hi
      rw [hname] at h4
      exact h4
    unfold bbl_interface_lock
    simp [h0]

/-- Witness for C4: a live competing holder (process 7) blocks the lock,
the override acquires it anyway, and after releasing all locks the
acquisition succeeds. -/
theorem C4_lock_conflict_override_release_witness :
    (bbl_interface_lock sample_env fs_busy "eth0").1 = false
    ∧ (bbl_interface_lock sample_env_force fs_busy "eth0").1 = true
    ∧ (bbl_interface_lock sample_env
        (bbl_interface_unlock_all sample_locked_ctx).fs "eth0").1 = true :=
  ⟨(C4_lock_conflict_override_release sample_env fs_busy "eth0" 7).1
      rfl rfl rfl,
    (C4_lock_conflict_override_release sample_env_force fs_busy "eth0" 7).2.1
      rfl,
    (C4_lock_conflict_override_release sample_env fs_busy "eth0" 7).2.2
      sample_locked_ctx { calloc_interface with name := "eth0" }
      (by decide) rfl⟩

/-- Counterexample to claim C5 as stated: with the `interface_lock_force`
override unset and a lock file whose content is unparsable,
`bbl_interface_lock` logs the invalid-lock-file error and fails (returns
false and leaves the filesystem unchanged) instead of proceeding. -/
theorem C5_counterexample :
    bbl_interface_lock sample_env fs_garbage "eth0"
      = (false, fs_garbage, [LogMsg.invalidLockFile "eth0"]) := rfl

/-- Claim C5 amended: during lock acquisition, if the lock file records a
parsable pid greater than 1 whose process is no longer alive, the
registration proceeds silently (no log), rewriting the file with the current
pid; if the content is unparsable, it logs an invalid-lock-file error and
fails unless the `interface_lock_force` override is set, in which case it
logs and proceeds. -/
theorem C5_amended_dead_or_invalid (env : Env) (fs : FS) (N : String)
    (p : Int) :
    (fsRead fs (lock_path N) = some (LockContent.intContent p) → p > 1 →
      env.alive p = false →
      bbl_interface_lock env fs N
        = (true,
            fsWrite fs (lock_path N) (LockContent.intContent env.pid), []))
    ∧ (fsRead fs (lock_path N) = some LockContent.garbage →
        bbl_interface_lock env fs N
          = if env.interface_lock_force then
              (true,
                fsWrite fs (lock_path N) (LockContent.intContent env.pid),
                [LogMsg.invalidLockFile N])
            else (false, fs, [LogMsg.invalidLockFile N])) := by
  constructor
  · intro hread hp hdead
    unfold bbl_interface_lock
    simp [hread, hp, hdead]
  · intro hread
    unfold bbl_interface_lock
    by_cases hf : env.interface_lock_force <;> simp [hread, hf]

/-- Witness for the amended C5: a dead recorded process (9) is overwritten
silently; garbage content without the override fails with the error log. -/
theorem C5_amended_dead_or_invalid_witness :
    bbl_interface_lock sample_env fs_dead "eth0"
      = (true,
          fsWrite fs_dead (lock_path "eth0")
            (LockContent.intContent sample_env.pid), [])
    ∧ bbl_interface_lock sample_env fs_garbage "eth0"
      = (if sample_env.interface_lock_force then
          (true,
            fsWrite fs_garbage (lock_path "eth0")
              (LockContent.intContent sample_env.pid),
            [LogMsg.invalidLockFile "eth0"])
        else (false, fs_garbage, [LogMsg.invalidLockFile "eth0"])) :=
  ⟨(C5_amended_dead_or_invalid sample_env fs_dead "eth0" 9).1
      rfl (by decide) rfl,
    (C5_amended_dead_or_invalid sample_env fs_garbage "eth0" 9).2 rfl⟩

/-- Claim C6, evaluated at the failing input: the DPDK branch of
`bbl_interface_set_kernel_info` does skip the kernel queries and report
success trivially, but `bbl_interface_add` assigns the configured io mode to
the interface only after the kernel-binding step, so the record passed to
`bbl_interface_set_kernel_info` still carries the calloc-default (non-DPDK)
mode: registering a DPDK link configuration performs the hardware-address
lookup anyway (the MAC-address error is logged) and aborts when it fails. -/
theorem C6_dpdk_kernel_binding_bug :
    (bbl_interface_set_kernel_info sample_os_fail
        { calloc_interface with
            name := "dpdk0", io_mode := IoMode.dpdk }).1 = true
    ∧ (bbl_interface_add sample_env sample_os_fail sample_ctx
        (sample_link "dpdk0" IoMode.dpdk)).1 = none
    ∧ (bbl_interface_add sample_env sample_os_fail sample_ctx
        (sample_link "dpdk0" IoMode.dpdk)).2.2
        = [LogMsg.macAddressError "dpdk0"] :=
  ⟨rfl, rfl, rfl⟩

/-- Claim C9: a successful registration returns an interface carrying the
configured name, inserts it at the tail of the registry's ordered
collection, and leaves the lock file
`/run/lock/bngblaster_<name>.lock` containing the current process id. -/
theorem C9_success_effects (env : Env) (os : OS) (ctx : Ctx)
    (link_config : LinkConfig) (interface : BblInterface) (ctx1 : Ctx)
    (logs : List LogMsg)
    (h : bbl_interface_add env os ctx link_config
        = (some interface, ctx1, logs)) :
    interface.name = link_config.interface
    ∧ ctx1.registry = ctx.registry ++ [interface]
    ∧ fsRead ctx1.fs (lock_path link_config.interface)
        = some (LockContent.intContent env.pid) := by
  obtain ⟨h1, h2, h3⟩ :=
    bbl_interface_add_some_effects env os ctx link_config interface ctx1
      logs h
  refine ⟨h1, h2, ?_⟩
  rw [h3]
  exact fsRead_fsWrite_self _ _ _

/-- Witness for C9: registering eth0 from the empty context with no
existing lock succeeds, the lock file content is pid 42, and the registry
gains the interface at its tail. -/
theorem C9_success_effects_witness :
    sample_added_interface.name
        = (sample_link "eth0" IoMode.packet_mmap).interface
    ∧ sample_added_ctx.registry
        = sample_ctx.registry ++ [sample_added_interface]
    ∧ fsRead sample_added_ctx.fs
        (lock_path (sample_link "eth0" IoMode.packet_mmap).interface)
        = some (LockContent.intContent sample_env.pid) :=
  C9_success_effects sample_env sample_os sample_ctx
    (sample_link "eth0" IoMode.packet_mmap)
    sample_added_interface sample_added_ctx [] (by decide)

/-- Claim C10: registration is not atomic on failure at the kernel-binding
step: when allocation and lock acquisition succeed but
`bbl_interface_set_kernel_info` fails, `bbl_interface_add` returns failure
while the interface has already been inserted at the tail of the registry
and the lock file has already been rewritten with the current process id,
and neither effect is rolled back. -/
theorem C10_partial_state_on_kernel_failure (env : Env) (os : OS) (ctx : Ctx)
    (link_config : LinkConfig)
    (halloc : env.alloc_ok = true)
    (hlock : (bbl_interface_lock env ctx.fs link_config.interface).1 = true)
    (hkern : (bbl_interface_set_kernel_info os
        { calloc_interface with
            name := link_config.interface
            pcap_index := ctx.pcap_index }).1 = false) :
    (bbl_interface_add env os ctx link_config).1 = none
    ∧ (∃ interface1,
        (bbl_interface_add env os ctx link_config).2.1.registry
          = ctx.registry ++ [interface1]
        ∧ interface1.name = link_config.interface)
    ∧ fsRead (bbl_interface_add env os ctx link_config).2.1.fs
        (lock_path link_config.interface)
        = some (LockContent.intContent env.pid) := by
  have hfs1 : (bbl_interface_lock env ctx.fs link_config.interface).2.1
      = fsWrite ctx.fs (lock_path link_config.interface)
        (LockContent.intContent env.pid) :=
    bbl_interface_lock_true_fs env ctx.fs link_config.interface hlock
  have hi1 : (bbl_interface_set_kernel_info os
      { calloc_interface with
          name := link_config.interface
          pcap_index := ctx.pcap_index }).2.1.name = link_config.interface :=
    set_kernel_info_name os _
  rcases hl : bbl_interface_lock env ctx.fs link_config.interface with
    ⟨b, fs1, logs1⟩
  rw [hl] at hlock hfs1
  cases b with
  | false => simp at hlock
  | true =>
  rcases hk : bbl_interface_set_kernel_info os
      { calloc_interface with
          name := link_config.interface
          pcap_index := ctx.pcap_index } with ⟨bk, i1, logs2⟩
  rw [hk] at hkern hi1
  cases bk with
  | true => simp at hkern
  | false =>
  have hfs2 : fs1 = fsWrite ctx.fs (lock_path link_config.interface)
      (LockContent.intContent env.pid) := by simpa using hfs1
  have hi2 : i1.name = link_config.interface := by simpa using hi1
  unfold bbl_interface_add
  simp only [halloc, Bool.not_true, Bool.false_eq_true, if_false, hl, hk]
  refine ⟨trivial, ⟨i1, by simp, hi2⟩, ?_⟩
  rw [hfs2]
  exact fsRead_fsWrite_self _ _ _

/-- Witness for C10: registering eth0 from the empty context with failing
device queries aborts while the registry and the lock file keep the partial
state. -/
theorem C10_partial_state_on_kernel_failure_witness :
    (bbl_interface_add sample_env sample_os_fail sample_ctx
        (sample_link "eth0" IoMode.packet_mmap)).1 = none
    ∧ (∃ interface1,
        (bbl_interface_add sample_env sample_os_fail sample_ctx
            (sample_link "eth0" IoMode.packet_mmap)).2.1.registry
          = sample_ctx.registry ++ [interface1]
        ∧ interface1.name
            = (sample_link "eth0" IoMode.packet_mmap).interface)
    ∧ fsRead (bbl_interface_add sample_env sample_os_fail sample_ctx
          (sample_link "eth0" IoMode.packet_mmap)).2.1.fs
        (lock_path (sample_link "eth0" IoMode.packet_mmap).interface)
        = some (LockContent.intContent sample_env.pid) :=
  C10_partial_state_on_kernel_failure sample_env sample_os_fail sample_ctx
    (sample_link "eth0" IoMode.packet_mmap) rfl (by decide) (by decide)

end BngBlaster
